import Mathlib

/-!
# Blackhole DNS resolver — shallow embedding and verification

This file embeds the query-resolution logic of `src/blackhole.py`
(class `BlackholeResolver`) and proves/refutes the specification claims
about it.

Modelling conventions:
* dnslib `DNSLabel` values are modelled by their canonical presentation
  string: the label text with every trailing root dot removed and letter
  case preserved — exactly the data that reaches the wire.  The `RR`
  constructor in dnslib coerces whatever is passed as `rname` to a
  `DNSLabel`; the embedding performs the same canonicalisation with
  `rstripDot` at record-construction sites.
* `QTYPE` is the closed enumeration of record-type mnemonics the
  resolver can receive; the code only ever compares the mnemonic against
  the strings `'SOA'` and `'NS'`.
* The Python `try`/`except` in `resolve` is modelled by an explicit
  `fault` flag: `fault = true` means some step inside the `try` block
  raised, in which case the `except` branch's `error_reply` is returned.
  The embedded `resolve` is a total Lean function, so "never raises"
  holds by construction.
-/

namespace Blackhole

/-- Record-type mnemonics (dnslib `QTYPE`), a closed enumeration. -/
inductive QTYPE where
  | A | NS | CNAME | SOA | PTR | MX | TXT | AAAA
  deriving DecidableEq

/-- dnslib `DNSHeader`: transaction id, flag bits and response code.
`rcode` values used by the program: 0 = NOERROR, 2 = SERVFAIL, 3 = NXDOMAIN. -/
structure DNSHeader where
  id : Nat
  qr : Nat
  aa : Nat
  ra : Nat
  rcode : Nat
  deriving DecidableEq

/-- dnslib `DNSQuestion`: queried name (presentation string of the
parsed `DNSLabel`, trailing root dot and original case included) and type. -/
structure DNSQuestion where
  qname : String
  qtype : QTYPE
  deriving DecidableEq

/-- dnslib `SOA` rdata: fields of the start-of-authority record. -/
structure SOA where
  mname : String
  rname : String
  serial : Nat
  refresh : Nat
  retry : Nat
  expire : Nat
  minimum : Nat
  deriving DecidableEq

/-- Resource-record payload: either SOA rdata or an NS target name. -/
inductive RData where
  | soa (record : SOA)
  | ns (target : String)
  deriving DecidableEq

/-- dnslib `RR`: one resource record.  `rname` is stored in canonical
`DNSLabel` form (trailing root dots stripped, case preserved). -/
structure RR where
  rname : String
  rtype : QTYPE
  rclass : Nat
  ttl : Nat
  rdata : RData
  deriving DecidableEq

/-- dnslib `DNSRecord`: a DNS message.  `rr` is the answer section,
`auth` the authority section, as in dnslib. -/
structure DNSRecord where
  header : DNSHeader
  q : DNSQuestion
  rr : List RR
  auth : List RR
  deriving DecidableEq

/-- Python `s.rstrip('.')`: remove every trailing dot. -/
def rstripDot (s : String) : String :=
  String.mk ((s.data.reverse.dropWhile (fun c => c == '.')).reverse)

/-- Python `s.endswith(p)`. -/
def strEndsWith (s p : String) : Bool :=
  p.data.isSuffixOf s.data

/-- `BASE_DOMAIN` constant of the program. -/
def BASE_DOMAIN : String := "romulan.zone"

/-- `DNS_TTL` constant of the program. -/
def DNS_TTL : Nat := 60

/-- `SOA_RECORD` constant of the program (names canonicalised as
dnslib's `DNSLabel` coercion does). -/
def SOA_RECORD : SOA :=
  { mname := rstripDot "blackhole.romulan.zone.",
    rname := rstripDot "hostmaster.romulan.zone.",
    serial := 202502191,
    refresh := 7200,
    retry := 900,
    expire := 1209600,
    minimum := 86400 }

/-- `NS_RECORDS` constant of the program: the NS target names. -/
def NS_RECORDS : List String := [rstripDot "blackhole.romulan.zone."]

/-- `BlackholeResolver._is_valid_domain`:
`qname == BASE_DOMAIN or qname.endswith("." + BASE_DOMAIN)`. -/
def is_valid_domain (qname : String) : Bool :=
  qname == BASE_DOMAIN || strEndsWith qname ("." ++ BASE_DOMAIN)

/-- `BlackholeResolver._handle_soa_query`: append one SOA answer with
`rname = qname`, `ttl = DNS_TTL`, `rdata = SOA_RECORD`. -/
def handle_soa_query (reply : DNSRecord) (qname : String) : DNSRecord :=
  { reply with
    rr := reply.rr ++
      [{ rname := rstripDot qname, rtype := QTYPE.SOA, rclass := 1,
         ttl := DNS_TTL, rdata := RData.soa SOA_RECORD }] }

/-- `BlackholeResolver._handle_ns_query`: append one NS answer per entry
of `NS_RECORDS`, each with `rname = qname`, `ttl = DNS_TTL`. -/
def handle_ns_query (reply : DNSRecord) (qname : String) : DNSRecord :=
  { reply with
    rr := reply.rr ++
      NS_RECORDS.map (fun t =>
        { rname := rstripDot qname, rtype := QTYPE.NS, rclass := 1,
          ttl := DNS_TTL, rdata := RData.ns t }) }

/-- `BlackholeResolver._add_soa_to_authority`: append the zone SOA
record (`rname = BASE_DOMAIN`, `ttl = DNS_TTL`) to the authority section. -/
def add_soa_to_authority (reply : DNSRecord) : DNSRecord :=
  { reply with
    auth := reply.auth ++
      [{ rname := rstripDot BASE_DOMAIN, rtype := QTYPE.SOA, rclass := 1,
         ttl := DNS_TTL, rdata := RData.soa SOA_RECORD }] }

/-- Body of the `try` block of `BlackholeResolver.resolve`: build the
reply header (`id` echoed, `qr=1, aa=1, ra=0`, `rcode` defaulting to 0)
with the question echoed, add the SOA to the authority section whenever
`qt != 'SOA'`, then dispatch on the query type and
`_is_valid_domain(str(qname).rstrip('.'))`. -/
def resolveBody (request : DNSRecord) : DNSRecord :=
  let reply : DNSRecord :=
    { header := { id := request.header.id, qr := 1, aa := 1, ra := 0, rcode := 0 },
      q := request.q, rr := [], auth := [] }
  let reply := if request.q.qtype ≠ QTYPE.SOA then add_soa_to_authority reply else reply
  let domain_str := rstripDot request.q.qname
  if request.q.qtype = QTYPE.SOA ∧ is_valid_domain domain_str = true then
    handle_soa_query reply request.q.qname
  else if request.q.qtype = QTYPE.NS ∧ is_valid_domain domain_str = true then
    handle_ns_query reply request.q.qname
  else
    { reply with header := { reply.header with rcode := 3 } }

/-- `BlackholeResolver.resolve`: the `try`/`except` entry point.
`fault = true` models an exception raised inside the `try` block; the
`except` branch returns `error_reply` — id echoed, `qr=1, aa=1, ra=0`,
`rcode = 2` (SERVFAIL), question echoed, no answer or authority records. -/
def resolve (fault : Bool) (request : DNSRecord) : DNSRecord :=
  if fault = true then
    { header := { id := request.header.id, qr := 1, aa := 1, ra := 0, rcode := 2 },
      q := request.q, rr := [], auth := [] }
  else
    resolveBody request

/-- The classifier as `resolve` computes it: `domain_str = str(qname).rstrip('.')`
fed to `_is_valid_domain`. -/
def codeInZone (s : String) : Bool :=
  is_valid_domain (rstripDot s)

/-- Modelled from the spec (§4.1): the spec's normalization of a queried
name — strip the trailing root-label separator AND lower-case.  Kept
separate from the code's `rstripDot` for comparison; the source never
lower-cases. -/
def specNormalize (s : String) : String :=
  String.mk ((rstripDot s).data.map Char.toLower)

/-- Modelled from the spec (§4.1): `inZone` as the spec words it —
the spec-normalized name equals the authoritative domain or ends with
`"." + authoritativeDomain`. -/
def specInZone (s : String) : Bool :=
  specNormalize s == BASE_DOMAIN || strEndsWith (specNormalize s) ("." ++ BASE_DOMAIN)

/-- The three mutually exclusive states of the response-builder state
machine (spec §4.2), as decided by the branch ladder of `resolve`. -/
inductive BuilderState where
  | soaInZone | nsInZone | negative
  deriving DecidableEq

/-- The branch ladder of `resolve` (lines 73–84) as a decision function
on (query type, zone membership). -/
def classifyState (qt : QTYPE) (inZone : Bool) : BuilderState :=
  if qt = QTYPE.SOA ∧ inZone = true then BuilderState.soaInZone
  else if qt = QTYPE.NS ∧ inZone = true then BuilderState.nsInZone
  else BuilderState.negative

/-- `resolveBody` re-expressed as a dispatch on `classifyState`; proved
equal to `resolveBody` in the claim-C8 theorem. -/
def buildByState (request : DNSRecord) : DNSRecord :=
  let reply : DNSRecord :=
    { header := { id := request.header.id, qr := 1, aa := 1, ra := 0, rcode := 0 },
      q := request.q, rr := [], auth := [] }
  let reply := if request.q.qtype ≠ QTYPE.SOA then add_soa_to_authority reply else reply
  match classifyState request.q.qtype (is_valid_domain (rstripDot request.q.qname)) with
  | BuilderState.soaInZone => handle_soa_query reply request.q.qname
  | BuilderState.nsInZone => handle_ns_query reply request.q.qname
  | BuilderState.negative => { reply with header := { reply.header with rcode := 3 } }

/-! ## Theorems for the claims -/

/-- Claim C1 (code_bug evidence): an out-of-zone SOA query yields
NXDOMAIN with an EMPTY authority section — the `qt != 'SOA'` guard on
line 67 skips `_add_soa_to_authority` even though this NXDOMAIN response
should carry the zone SOA per the claim and the code's own comment
("Always add SOA to authority section for NXDOMAIN responses"). -/
theorem soa_out_of_zone_missing_authority :
    resolve false ⟨⟨9, 0, 0, 0, 0⟩, ⟨"evil.com.", QTYPE.SOA⟩, [], []⟩ =
      ⟨⟨9, 1, 1, 0, 3⟩, ⟨"evil.com.", QTYPE.SOA⟩, [], []⟩ := by
  decide

/-- Claim C2 (code_bug evidence): an in-zone NS query yields NOERROR
with the configured NS answer, but the authority section is NOT empty:
line 67 adds the zone SOA to authority for every non-SOA query type
before the NS branch runs, contradicting the claim (and the code's own
comment that the authority SOA is for NXDOMAIN responses). -/
theorem ns_in_zone_authority_not_empty :
    resolve false ⟨⟨5, 0, 0, 0, 0⟩, ⟨"romulan.zone.", QTYPE.NS⟩, [], []⟩ =
      ⟨⟨5, 1, 1, 0, 0⟩, ⟨"romulan.zone.", QTYPE.NS⟩,
        [⟨"romulan.zone", QTYPE.NS, 1, 60, RData.ns "blackhole.romulan.zone"⟩],
        [⟨"romulan.zone", QTYPE.SOA, 1, 60, RData.soa SOA_RECORD⟩]⟩ := by
  decide

/-- Claim C4 (counterexample): the claim says the classifier lower-cases
the name, so `"ROMULAN.ZONE."` would be in-zone; the code's classifier
(`str(qname).rstrip('.')` fed to `_is_valid_domain`) performs no
lower-casing and rejects it. -/
theorem classifier_no_lowercasing_cex :
    specInZone "ROMULAN.ZONE." = true ∧ codeInZone "ROMULAN.ZONE." = false := by
  decide

/-- Claim C4 (amended): the classifier normalizes only by stripping
trailing root-label separators (no lower-casing; the comparison is
case-sensitive), and `inZone` is true iff the stripped name equals the
authoritative domain or ends with `"." + authoritativeDomain`; the
empty name yields `inZone = false`. -/
theorem in_zone_iff_stripped_match :
    (∀ s : String,
      codeInZone s = true ↔
        (rstripDot s = BASE_DOMAIN ∨
          ("." ++ BASE_DOMAIN).data <:+ (rstripDot s).data)) ∧
    codeInZone "" = false := by
  constructor
  · intro s
    simp [codeInZone, is_valid_domain, strEndsWith, List.isSuffixOf_iff_suffix]
  · decide

/-- Claim C3: `resolve` is total by construction (the embedding is a
total Lean function; the Python `except` branch catches every fault in
the `try` block), and on the fault path it returns a response with the
request's transaction id, flags `qr=1, aa=1, ra=0`, `rcode = SERVFAIL`,
and empty answer and authority sections. -/
theorem resolve_fault_is_servfail (request : DNSRecord) :
    (resolve true request).header.id = request.header.id ∧
    (resolve true request).header.qr = 1 ∧
    (resolve true request).header.aa = 1 ∧
    (resolve true request).header.ra = 0 ∧
    (resolve true request).header.rcode = 2 ∧
    (resolve true request).rr = [] ∧
    (resolve true request).auth = [] := by
  simp [resolve]

/-- Claim C7: for every query and every disposition (normal run or
fault), the response's transaction id equals the request's, and the
header flags are `qr=1, aa=1, ra=0`. -/
theorem resolve_header_invariants (fault : Bool) (request : DNSRecord) :
    (resolve fault request).header.id = request.header.id ∧
    (resolve fault request).header.qr = 1 ∧
    (resolve fault request).header.aa = 1 ∧
    (resolve fault request).header.ra = 0 := by
  cases fault with
  | true => simp [resolve]
  | false =>
    simp only [resolve, resolveBody, Bool.false_eq_true, if_false]
    split_ifs <;>
      simp [handle_soa_query, handle_ns_query, add_soa_to_authority]

/-- Claim C9: `resolve` is deterministic — two non-faulting invocations
on requests with the same question (name and type) produce identical
question, answer, authority sections and response code, each response
echoing its own request's transaction id. -/
theorem resolve_deterministic_mod_id (h1 h2 : DNSHeader) (q : DNSQuestion)
    (a1 b1 a2 b2 : List RR) :
    (resolve false ⟨h1, q, a1, b1⟩).q = (resolve false ⟨h2, q, a2, b2⟩).q ∧
    (resolve false ⟨h1, q, a1, b1⟩).rr = (resolve false ⟨h2, q, a2, b2⟩).rr ∧
    (resolve false ⟨h1, q, a1, b1⟩).auth = (resolve false ⟨h2, q, a2, b2⟩).auth ∧
    (resolve false ⟨h1, q, a1, b1⟩).header.rcode =
      (resolve false ⟨h2, q, a2, b2⟩).header.rcode ∧
    (resolve false ⟨h1, q, a1, b1⟩).header.id = h1.id ∧
    (resolve false ⟨h2, q, a2, b2⟩).header.id = h2.id := by
  simp only [resolve, resolveBody, Bool.false_eq_true, if_false]
  split_ifs <;>
    simp [handle_soa_query, handle_ns_query, add_soa_to_authority]

/-- Claim C10: on the fault path, the SERVFAIL reply carries the
request's question section verbatim (`q=request.q` in the `except`
branch). -/
theorem fault_reply_echoes_question (request : DNSRecord) :
    (resolve true request).q = request.q := by
  simp [resolve]

/-- Claim C5: an SOA query for a name that is in the authoritative zone
(`_is_valid_domain` on the stripped name) yields NOERROR, exactly one
SOA answer whose owner is the normalized query name (`rstripDot qname`,
which is also the canonical form of the `DNSLabel` the code passes as
`rname`), carrying `SOA_RECORD` (the configured
serial/refresh/retry/expire/minimum) with `ttl = DNS_TTL`, and an empty
authority section. -/
theorem soa_in_zone_answer (request : DNSRecord)
    (hq : request.q.qtype = QTYPE.SOA)
    (hz : is_valid_domain (rstripDot request.q.qname) = true) :
    (resolve false request).header.rcode = 0 ∧
    (resolve false request).rr =
      [{ rname := rstripDot request.q.qname, rtype := QTYPE.SOA, rclass := 1,
         ttl := DNS_TTL, rdata := RData.soa SOA_RECORD }] ∧
    (resolve false request).auth = [] := by
  simp [resolve, resolveBody, hq, hz, handle_soa_query]

/-- Witness for the claim-C5 theorem at the request
`id=11, qname="romulan.zone.", qtype=SOA`. -/
theorem soa_in_zone_answer_witness :
    ((⟨⟨11, 0, 0, 0, 0⟩, ⟨"romulan.zone.", QTYPE.SOA⟩, [], []⟩ :
        DNSRecord).q.qtype = QTYPE.SOA ∧
      is_valid_domain (rstripDot (⟨⟨11, 0, 0, 0, 0⟩,
        ⟨"romulan.zone.", QTYPE.SOA⟩, [], []⟩ : DNSRecord).q.qname) = true) ∧
    ((resolve false ⟨⟨11, 0, 0, 0, 0⟩,
        ⟨"romulan.zone.", QTYPE.SOA⟩, [], []⟩).header.rcode = 0 ∧
      (resolve false ⟨⟨11, 0, 0, 0, 0⟩,
        ⟨"romulan.zone.", QTYPE.SOA⟩, [], []⟩).rr =
        [{ rname := rstripDot (⟨⟨11, 0, 0, 0, 0⟩,
             ⟨"romulan.zone.", QTYPE.SOA⟩, [], []⟩ : DNSRecord).q.qname,
           rtype := QTYPE.SOA, rclass := 1,
           ttl := DNS_TTL, rdata := RData.soa SOA_RECORD }] ∧
      (resolve false ⟨⟨11, 0, 0, 0, 0⟩,
        ⟨"romulan.zone.", QTYPE.SOA⟩, [], []⟩).auth = []) :=
  ⟨⟨rfl, by decide⟩, soa_in_zone_answer _ rfl (by decide)⟩

/-- Claim C6: an in-zone query whose type is neither SOA nor NS yields
NXDOMAIN, empty answers, and an authority section holding exactly the
zone's SOA record with `ttl = DNS_TTL`. -/
theorem in_zone_other_type_nxdomain (request : DNSRecord)
    (hs : request.q.qtype ≠ QTYPE.SOA)
    (hn : request.q.qtype ≠ QTYPE.NS)
    (_hz : is_valid_domain (rstripDot request.q.qname) = true) :
    (resolve false request).header.rcode = 3 ∧
    (resolve false request).rr = [] ∧
    (resolve false request).auth =
      [{ rname := rstripDot BASE_DOMAIN, rtype := QTYPE.SOA, rclass := 1,
         ttl := DNS_TTL, rdata := RData.soa SOA_RECORD }] := by
  simp [resolve, resolveBody, hs, hn, add_soa_to_authority]

/-- Witness for the claim-C6 theorem at the request
`id=13, qname="foo.romulan.zone.", qtype=A`. -/
theorem in_zone_other_type_nxdomain_witness :
    ((⟨⟨13, 0, 0, 0, 0⟩, ⟨"foo.romulan.zone.", QTYPE.A⟩, [], []⟩ :
        DNSRecord).q.qtype ≠ QTYPE.SOA ∧
      (⟨⟨13, 0, 0, 0, 0⟩, ⟨"foo.romulan.zone.", QTYPE.A⟩, [], []⟩ :
        DNSRecord).q.qtype ≠ QTYPE.NS ∧
      is_valid_domain (rstripDot (⟨⟨13, 0, 0, 0, 0⟩,
        ⟨"foo.romulan.zone.", QTYPE.A⟩, [], []⟩ : DNSRecord).q.qname) = true) ∧
    ((resolve false ⟨⟨13, 0, 0, 0, 0⟩,
        ⟨"foo.romulan.zone.", QTYPE.A⟩, [], []⟩).header.rcode = 3 ∧
      (resolve false ⟨⟨13, 0, 0, 0, 0⟩,
        ⟨"foo.romulan.zone.", QTYPE.A⟩, [], []⟩).rr = [] ∧
      (resolve false ⟨⟨13, 0, 0, 0, 0⟩,
        ⟨"foo.romulan.zone.", QTYPE.A⟩, [], []⟩).auth =
        [{ rname := rstripDot BASE_DOMAIN, rtype := QTYPE.SOA, rclass := 1,
           ttl := DNS_TTL, rdata := RData.soa SOA_RECORD }]) :=
  ⟨⟨by decide, by decide, by decide⟩,
    in_zone_other_type_nxdomain _ (by decide) (by decide) (by decide)⟩

/-- Claim C8: the response-building decision is total and the three
states are mutually exclusive — for every (type, inZone) pair the
decision function lands in `soaInZone` iff `type = SOA ∧ inZone`, in
`nsInZone` iff `type = NS ∧ inZone`, and in `negative` iff neither
holds; moreover `resolveBody` (a total, pure Lean function — it cannot
fail and has no side effects) coincides with the dispatch on
`classifyState`. -/
theorem builder_states_total_and_exclusive :
    (∀ (qt : QTYPE) (z : Bool),
      (classifyState qt z = BuilderState.soaInZone ↔ qt = QTYPE.SOA ∧ z = true) ∧
      (classifyState qt z = BuilderState.nsInZone ↔ qt = QTYPE.NS ∧ z = true) ∧
      (classifyState qt z = BuilderState.negative ↔
        ¬(qt = QTYPE.SOA ∧ z = true) ∧ ¬(qt = QTYPE.NS ∧ z = true))) ∧
    (∀ request : DNSRecord, resolveBody request = buildByState request) := by
  constructor
  · intro qt z
    cases qt <;> cases z <;> simp [classifyState]
  · intro request
    simp only [resolveBody, buildByState, classifyState]
    split_ifs <;> rfl

end Blackhole
